import Mathlib

/-!
Shallow embedding of the client-side Chat Session & Offline Sync path of the
Awladna front end, together with proofs of the behavioural properties of its
session store (src/context/ChatContext.tsx), message pipeline
(src/api/chat.ts, src/hooks/useChatMessages.ts, src/pages/Chat.tsx) and
offline outbox (src/utils/outboxStore.ts, public/service-worker.js).

Modelling conventions:
- JavaScript objects become structures; `null`/`undefined` become `Option`.
- The single-threaded event-loop execution of each handler is embedded as a
  pure state-transformer; `Date.now()` and `new Date().toISOString()` are
  passed in explicitly as clock arguments.
- The network (`fetch`) is embedded as an explicit function argument giving
  the outcome of each request, and every embedded operation additionally
  returns the ordered trace of requests it issued.
- JavaScript exceptions become `Except` / explicit error fields; an embedded
  function being total corresponds to the original never throwing.
- JavaScript numbers that are only carried through (sentiment scores) are
  modelled as `Rat`; no arithmetic is ever performed on them.
-/

namespace Awladna

/-- Sentiment scores and similar JSON numbers: carried opaquely, never
computed with, so any type with decidable equality is faithful. -/
abbrev JSNumber := Rat

/-- Embeds the `ChatMessage` interface of src/context/ChatContext.tsx:
`{ id, text, fromChild, timestamp, sentiment?, sentiment_score?, suggestions? }`.
The optional fields are absent (`none`) unless the AI response supplied them. -/
structure ChatMessage where
  id : String
  text : String
  fromChild : Bool
  timestamp : String
  sentiment : Option String := none
  sentiment_score : Option JSNumber := none
  suggestions : Option (List String) := none
deriving DecidableEq, Inhabited

/-- Embeds the `Chat` interface: one chat session, `{ id, messages }`. -/
structure Chat where
  id : String
  messages : List ChatMessage
deriving DecidableEq, Inhabited

/-- Embeds the state held by `ChatProvider` in src/context/ChatContext.tsx:
`useState<Chat[]>([])` and `useState<string | null>(null)`. -/
structure ChatState where
  chats : List Chat
  currentChatId : Option String
deriving DecidableEq, Inhabited

/-- Initial provider state: `chats = []`, `currentChatId = null`. -/
def initialChatState : ChatState := { chats := [], currentChatId := none }

/-- Embeds `createNewChat` of src/context/ChatContext.tsx: the id is
`Date.now().toString()` (the current clock value, printed in decimal), the
new chat has an empty message list, is appended to `chats`, becomes the
current chat, and its id is returned. `now` is the value `Date.now()`
returned during this call. -/
def createNewChat (now : Nat) (s : ChatState) : String × ChatState :=
  let newChat : Chat := { id := toString now, messages := [] }
  (newChat.id,
   { chats := s.chats ++ [newChat], currentChatId := some newChat.id })

/-- Embeds `addMessageToChat` of src/context/ChatContext.tsx:
`setChats(prev => prev.map(chat => chat.id === chatId ? { ...chat, messages: [...chat.messages, message] } : chat))`. -/
def addMessageToChat (chatId : String) (message : ChatMessage) (s : ChatState) :
    ChatState :=
  { s with
    chats := s.chats.map fun chat =>
      if chat.id = chatId then
        { chat with messages := chat.messages ++ [message] }
      else chat }

/-- Runs a sequence of `createNewChat` calls, one per clock reading in
`times`, threading the provider state. -/
def runCreates (times : List Nat) (s : ChatState) : ChatState :=
  times.foldl (fun st t => (createNewChat t st).2) s

/-! ### Message pipeline (src/api/chat.ts, src/hooks/useChatMessages.ts,
src/pages/Chat.tsx) -/

/-- Embeds the `FetchChatResponseInput` interface of src/api/chat.ts. -/
structure FetchChatResponseInput where
  user_input : String
deriving DecidableEq, Inhabited

/-- Embeds the `AIResponse` interface of src/api/chat.ts: the 2xx response
body of POST `/auth/chat/respond`. -/
structure AIResponse where
  response : String
  sentiment : String
  sentiment_score : JSNumber
  suggested_actions : List String
deriving DecidableEq, Inhabited

/-- The possible outcomes of one `fetch` call, as observed by
`fetchChatResponse`: the promise resolves to a response (`res.ok` is true
exactly when the status is 2xx, and `text` is the body read by
`res.text()`), or the promise rejects (network failure). -/
inductive NetOutcome where
  | response (status : Nat) (text : String) (body : AIResponse)
  | reject (reason : String)
deriving DecidableEq, Inhabited

/-- True when this outcome is a resolved response with a 2xx status, i.e.
`res.ok` in the source. -/
def NetOutcome.isOk : NetOutcome → Bool
  | .response status _ _ => 200 ≤ status && status < 300
  | .reject _ => false

/-- The errors thrown out of `fetchChatResponse` in src/api/chat.ts:
`noToken` is `throw new Error('No access token found')`, and
`chatRequestFailed` is the spec's `ChatRequestFailed` class — either
`throw new Error('AI error: <status> <text>')` on a non-2xx response, or the
propagated rejection of the `fetch` call itself. -/
inductive ChatError where
  | noToken
  | chatRequestFailed (msg : String)
deriving DecidableEq

/-- JavaScript falsiness of the `localStorage.getItem('access_token')`
result as tested by the source's `if (!token)`: true when the item is
absent (null, modelled `none`) and also when it is the empty string. -/
def tokenFalsy : Option String → Bool
  | none => true
  | some t => t = ""

/-- Embeds `fetchChatResponse` of src/api/chat.ts. `token` is
`localStorage.getItem('access_token')`; `net` gives the outcome of each
request the function issues. The result pairs the value returned or error
thrown with the ordered list of requests actually sent over the network. -/
def fetchChatResponse (token : Option String)
    (net : FetchChatResponseInput → NetOutcome)
    (input : FetchChatResponseInput) :
    Except ChatError AIResponse × List FetchChatResponseInput :=
  if tokenFalsy token then (Except.error ChatError.noToken, [])
  else
    match net input with
    | NetOutcome.response status text body =>
      if 200 ≤ status && status < 300 then (Except.ok body, [input])
      else
        (Except.error (ChatError.chatRequestFailed
          ("AI error: " ++ toString status ++ " " ++ text)), [input])
    | NetOutcome.reject reason =>
      (Except.error (ChatError.chatRequestFailed reason), [input])

/-- The user-message object literal built in `sendMessage`
(src/pages/Chat.tsx): `{ id: Date.now().toString(), text, fromChild: true,
timestamp: new Date().toISOString() }`. -/
def userMessageOf (userNow : Nat) (userTs text : String) : ChatMessage :=
  { id := toString userNow, text := text, fromChild := true,
    timestamp := userTs }

/-- The AI-message object literal built in `addAIMessage`
(src/hooks/useChatMessages.ts) from the response body. -/
def aiMessageOf (aiNow : Nat) (aiTs : String) (res : AIResponse) : ChatMessage :=
  { id := toString aiNow ++ "_ai",
    text := res.response,
    fromChild := false,
    timestamp := aiTs,
    sentiment := some res.sentiment,
    sentiment_score := some res.sentiment_score,
    suggestions := some res.suggested_actions }

/-- The state managed by the `useChatMessages` hook together with the chat
context it writes through to: the context `ChatState`, the hook's local
`messages` list, and its `isLoading` flag. -/
structure HookState where
  chat : ChatState
  localMessages : List ChatMessage
  isLoading : Bool
deriving DecidableEq, Inhabited

/-- Embeds `addUserMessage` of src/hooks/useChatMessages.ts: if there is no
current chat it returns without any effect; otherwise it adds `msg` to the
current chat in the context and to the hook's local list. -/
def addUserMessage (msg : ChatMessage) (st : HookState) : HookState :=
  match st.chat.currentChatId with
  | none => st
  | some cid =>
    { st with
      chat := addMessageToChat cid msg st.chat,
      localMessages := st.localMessages ++ [msg] }

/-- The observable result of one `addAIMessage` call: the state after the
call, the network requests issued, the error caught by its `catch` branch
(`none` on success — the error never escapes to the caller), and the toasts
shown. -/
structure AIMessageResult where
  state : HookState
  requests : List FetchChatResponseInput
  caught : Option ChatError
  toasts : List String
deriving DecidableEq, Inhabited

/-- Embeds `addAIMessage` of src/hooks/useChatMessages.ts: sets `isLoading`,
awaits `fetchChatResponse({ user_input: input })`; on success builds the AI
`ChatMessage` (id `` `${Date.now()}_ai` ``, `fromChild: false`, fields from
the response body), adds it to the current chat when one is selected and
always to the local list; on any thrown error shows the toast
"AI response failed." and swallows the error; finally clears `isLoading`.
`aiNow` is the `Date.now()` reading and `aiTs` the
`new Date().toISOString()` reading made on the success path. -/
def addAIMessage (token : Option String)
    (net : FetchChatResponseInput → NetOutcome)
    (aiNow : Nat) (aiTs : String) (input : String) (st : HookState) :
    AIMessageResult :=
  let st1 : HookState := { st with isLoading := true }
  match fetchChatResponse token net { user_input := input } with
  | (Except.ok res, reqs) =>
    let aiMsg : ChatMessage := aiMessageOf aiNow aiTs res
    let st2 : HookState :=
      match st1.chat.currentChatId with
      | some cid => { st1 with chat := addMessageToChat cid aiMsg st1.chat }
      | none => st1
    { state := { st2 with
        localMessages := st2.localMessages ++ [aiMsg], isLoading := false },
      requests := reqs,
      caught := none,
      toasts := [] }
  | (Except.error e, reqs) =>
    { state := { st1 with isLoading := false },
      requests := reqs,
      caught := some e,
      toasts := ["AI response failed."] }

/-- The set of characters stripped by JavaScript's `String.prototype.trim`
(ECMAScript TrimString): WhiteSpace — TAB, VT, FF, SP, NBSP U+00A0, ZWNBSP
U+FEFF and the Unicode Space_Separator category (U+1680, U+2000..U+200A,
U+202F, U+205F, U+3000) — together with the LineTerminator characters LF,
CR, LS U+2028 and PS U+2029. -/
def jsWhitespace (c : Char) : Bool :=
  c.toNat = 9 || c.toNat = 10 || c.toNat = 11 || c.toNat = 12 ||
  c.toNat = 13 || c.toNat = 32 || c.toNat = 160 || c.toNat = 5760 ||
  (8192 ≤ c.toNat && c.toNat ≤ 8202) || c.toNat = 8232 || c.toNat = 8233 ||
  c.toNat = 8239 || c.toNat = 8287 || c.toNat = 12288 || c.toNat = 65279

/-- Embeds `input.trim()`: removes leading and trailing whitespace. -/
def jsTrim (s : String) : String :=
  String.mk
    (((s.toList.dropWhile jsWhitespace).reverse.dropWhile jsWhitespace).reverse)

/-- The observable result of one `sendMessage` call in src/pages/Chat.tsx:
the state afterwards, the network requests issued, and the toasts shown. -/
structure SendResult where
  state : HookState
  requests : List FetchChatResponseInput
  toasts : List String
deriving DecidableEq, Inhabited

/-- Embeds `sendMessage` of src/pages/Chat.tsx: trims the input and returns
immediately when the result is empty; otherwise builds the user message
(id `Date.now().toString()`, `fromChild: true`), adds it via
`addUserMessage`, then awaits `addAIMessage(text)`. The page's own `catch`
branch (`toast.error("AI response failed.")`) is unreachable because
`addAIMessage` catches internally; the toasts reported are those shown
during the call. `userNow`/`userTs` are the clock readings used for the
user message, `aiNow`/`aiTs` those used inside `addAIMessage`. The UI-only
`input` and `isTyping` component states are not modelled. -/
def sendMessage (token : Option String)
    (net : FetchChatResponseInput → NetOutcome)
    (userNow aiNow : Nat) (userTs aiTs : String)
    (input : String) (st : HookState) : SendResult :=
  let text := jsTrim input
  if text = "" then { state := st, requests := [], toasts := [] }
  else
    let userMsg : ChatMessage := userMessageOf userNow userTs text
    let st1 := addUserMessage userMsg st
    let r := addAIMessage token net aiNow aiTs text st1
    { state := r.state, requests := r.requests, toasts := r.toasts }

/-! ### Offline outbox (src/utils/outboxStore.ts, public/service-worker.js) -/

/-- One raw message payload stored in the outbox (the service worker only
ever `JSON.stringify`s it into a request body, so it is carried opaquely). -/
structure OutboxMsg where
  payload : String
deriving DecidableEq, Inhabited

/-- The IndexedDB "outbox" object store of src/utils/outboxStore.ts: keyPath
"id" with `autoIncrement: true`. `nextKey` is the state of the store's key
generator (IndexedDB key generators start at 1); `entries` holds the records
in ascending key order, which is the order IndexedDB enumerates them. -/
structure OutboxDB where
  nextKey : Nat
  entries : List (Nat × OutboxMsg)
deriving DecidableEq, Inhabited

/-- A freshly created "outbox" store: empty, key generator at 1. -/
def emptyOutboxDB : OutboxDB := { nextKey := 1, entries := [] }

/-- Embeds `saveMessageToOutbox` of src/utils/outboxStore.ts:
`db.add(STORE_NAME, msg)` assigns the next auto-increment key to the record
and stores it. Generated keys strictly increase, so the new record sits at
the end of the key-ordered record list. -/
def saveMessageToOutbox (msg : OutboxMsg) (db : OutboxDB) : OutboxDB :=
  { nextKey := db.nextKey + 1, entries := db.entries ++ [(db.nextKey, msg)] }

/-- Embeds `getOutboxMessages` / `store.getAll()`: all stored values, in
ascending key order. -/
def getOutboxMessages (db : OutboxDB) : List OutboxMsg :=
  db.entries.map Prod.snd

/-- Embeds `clearOutbox` / `store.clear()`: removes every record. -/
def clearOutbox (db : OutboxDB) : OutboxDB :=
  { db with entries := [] }

/-- Enqueues a list of messages in order, starting from `db`. -/
def enqueueAll (msgs : List OutboxMsg) (db : OutboxDB) : OutboxDB :=
  msgs.foldl (fun d m => saveMessageToOutbox m d) db

/-- The `for (const msg of messages) { await fetch(...) }` loop written in
the service worker's "online" handler: posts each message in turn, awaiting
each send before starting the next. The loop never inspects the response, so
a resolved `fetch` — any HTTP status, 2xx or not — continues it; a rejected
`fetch` (network failure) throws, aborting it. Returns the messages posted,
in order, and whether a rejection aborted the loop. -/
def sendLoop (post : OutboxMsg → NetOutcome) :
    List OutboxMsg → List OutboxMsg × Bool
  | [] => ([], false)
  | m :: rest =>
    match post m with
    | NetOutcome.reject _ => ([m], true)
    | NetOutcome.response _ _ _ =>
      let r := sendLoop post rest
      (m :: r.1, r.2)

/-- The JS value the handler binds to `db`: `await indexedDB.open("chatApp")`
awaits the `IDBOpenDBRequest` returned by `IDBFactory.open`. A request
object is not a thenable, so `await` yields the request object itself —
never an `IDBDatabase`. -/
inductive AwaitedOpen where
  | idbOpenRequest
deriving DecidableEq, Inhabited

/-- The `transaction` member the handler then reads off `db`: on an
`IDBOpenDBRequest` this is the read-only `IDBRequest.transaction`
attribute, which is null for requests returned by `IDBFactory.open` outside
an upgrade transaction — not the `IDBDatabase.transaction` method. `none`
models null; calling a null member throws a TypeError. -/
def AwaitedOpen.transactionMember : AwaitedOpen → Option Unit
  | AwaitedOpen.idbOpenRequest => none

/-- The observable result of one run of the "online" handler: the outbox
afterwards, the messages posted to `/api/chat` in order, and the uncaught
exception that ended the run, if any. -/
structure OnlineHandlerRun where
  db : OutboxDB
  posted : List OutboxMsg
  threw : Option String
deriving DecidableEq, Inhabited

/-- The read → sequential POST → clear flush the handler's statements spell
out, i.e. what would execute if `db` were an actual `IDBDatabase`: read all
records with `getAll()`, POST each sequentially without checking any
response status, then clear the entire store — unless a rejected `fetch`
throws out of the loop first, skipping the clear. -/
def intendedFlush (post : OutboxMsg → NetOutcome) (db : OutboxDB) :
    OnlineHandlerRun :=
  let messages := getOutboxMessages db
  let r := sendLoop post messages
  if r.2 then { db := db, posted := r.1, threw := some ("fetch rejected") }
  else { db := clearOutbox db, posted := r.1, threw := none }

/-- Embeds the "online" event handler of public/service-worker.js as it
actually executes. `db` is the awaited `IDBOpenDBRequest` (see
`AwaitedOpen`), so the handler's second statement
`db.transaction("outbox", "readonly")` calls the request's null
`transaction` attribute and throws a TypeError; the handler has no
try/catch, so the exception aborts it before any record is read, any POST
is issued, or the store is cleared — the outbox is left exactly as it was.
Were the member callable, the statements spell out `intendedFlush`. -/
def onlineHandler (post : OutboxMsg → NetOutcome) (db : OutboxDB) :
    OnlineHandlerRun :=
  let dbVal := AwaitedOpen.idbOpenRequest
  match dbVal.transactionMember with
  | none =>
    { db := db, posted := [],
      threw := some ("TypeError: db.transaction is not a function") }
  | some _ => intendedFlush post db

/-! ### Auxiliary definitions for the proofs -/

/-- Numeric value of a decimal digit character ('0' has code 48). -/
def chVal (c : Char) : Nat := c.toNat - 48

/-- Reads a decimal digit string back into the number it denotes; the left
inverse of `Nat.repr` used to prove `Date.now().toString()` ids injective. -/
def parseDec (l : List Char) : Nat :=
  l.foldl (fun a c => a * 10 + chVal c) 0

/-- Concrete message fixture. -/
def msg0 : ChatMessage :=
  { id := "m1", text := "hello", fromChild := true, timestamp := "t0" }

/-- Concrete store with one session "a". -/
def state0 : ChatState :=
  { chats := [{ id := "a", messages := [] }], currentChatId := some ("a") }

/-- Concrete store with two sessions "a" and "b". -/
def state1 : ChatState :=
  { chats := [{ id := "a", messages := [] }, { id := "b", messages := [] }],
    currentChatId := some ("a") }

/-- Concrete AI response body fixture. -/
def aiRes0 : AIResponse :=
  { response := "AI echo: hi", sentiment := "neutral",
    sentiment_score := 0, suggested_actions := [] }

/-- An endpoint that answers every request with HTTP 200 and `aiRes0`. -/
def okNet : FetchChatResponseInput → NetOutcome :=
  fun _ => NetOutcome.response 200 ("") aiRes0

/-- An endpoint that answers every request with HTTP 500. -/
def errNet : FetchChatResponseInput → NetOutcome :=
  fun _ => NetOutcome.response 500 ("Internal Server Error") aiRes0

/-- Concrete hook state with one active session "1". -/
def hookState1 : HookState :=
  { chat := { chats := [{ id := "1", messages := [] }],
              currentChatId := some ("1") },
    localMessages := [], isLoading := false }

/-- An endpoint that answers every outbox POST with HTTP 500 (the POST
completes, but fails). -/
def failPost : OutboxMsg → NetOutcome :=
  fun _ => NetOutcome.response 500 ("Internal Server Error") aiRes0

/-- Two concrete outbox payloads. -/
def twoMsgs : List OutboxMsg :=
  [{ payload := "first" }, { payload := "second" }]

/-! ## Helper lemmas -/

/-- Pointwise description of `addMessageToChat`: the session at each index
is touched exactly when its id matches. -/
theorem addMessageToChat_getElem? (chatId : String) (msg : ChatMessage)
    (s : ChatState) (i : Nat) :
    (addMessageToChat chatId msg s).chats[i]? =
      (s.chats[i]?).map fun c =>
        if c.id = chatId then { c with messages := c.messages ++ [msg] }
        else c := by
  simp [addMessageToChat, List.getElem?_map]

/-- `addMessageToChat` never touches the active-session pointer. -/
theorem addMessageToChat_currentChatId (chatId : String) (msg : ChatMessage)
    (s : ChatState) :
    (addMessageToChat chatId msg s).currentChatId = s.currentChatId := rfl

/-- `addMessageToChat` never changes the number of sessions. -/
theorem addMessageToChat_length (chatId : String) (msg : ChatMessage)
    (s : ChatState) :
    (addMessageToChat chatId msg s).chats.length = s.chats.length := by
  simp [addMessageToChat]

/-- When every POST of the flush loop resolves (whatever its HTTP status),
the loop runs to completion and posts every message in order. -/
theorem sendLoop_responses (post : OutboxMsg → NetOutcome) :
    ∀ msgs : List OutboxMsg,
      (∀ m ∈ msgs, ∃ status text body,
        post m = NetOutcome.response status text body) →
      sendLoop post msgs = (msgs, false) := by
  intro msgs
  induction msgs with
  | nil => intro _; rfl
  | cons m rest ih =>
    intro h
    obtain ⟨status, text, body, hm⟩ := h m (by simp)
    simp [sendLoop, hm, ih fun x hx => h x (by simp [hx])]

/-- Enqueueing assigns consecutive auto-increment keys and appends in
order. -/
theorem enqueueAll_entries (msgs : List OutboxMsg) :
    ∀ db : OutboxDB,
      (enqueueAll msgs db).entries =
        db.entries ++ (List.range' db.nextKey msgs.length).zip msgs ∧
      (enqueueAll msgs db).nextKey = db.nextKey + msgs.length := by
  induction msgs with
  | nil => intro db; simp [enqueueAll]
  | cons m rest ih =>
    intro db
    have h := ih (saveMessageToOutbox m db)
    constructor
    · calc (enqueueAll (m :: rest) db).entries
          = (enqueueAll rest (saveMessageToOutbox m db)).entries := rfl
        _ = db.entries ++
            (List.range' db.nextKey (m :: rest).length).zip (m :: rest) := by
            rw [h.1]
            simp [saveMessageToOutbox, List.range'_succ]
    · calc (enqueueAll (m :: rest) db).nextKey
          = (enqueueAll rest (saveMessageToOutbox m db)).nextKey := rfl
        _ = db.nextKey + (m :: rest).length := by
            rw [h.2]; simp [saveMessageToOutbox]; omega

/-- Reading back an outbox filled from empty returns the enqueued messages
in enqueue order. -/
theorem getOutboxMessages_enqueueAll (msgs : List OutboxMsg) :
    getOutboxMessages (enqueueAll msgs emptyOutboxDB) = msgs := by
  rw [getOutboxMessages, (enqueueAll_entries msgs emptyOutboxDB).1]
  simp [emptyOutboxDB]
  exact List.map_snd_zip _ _ (by simp)

/-- Running a sequence of `createNewChat` calls appends one empty session
per call, with ids the printed clock readings. -/
theorem runCreates_chats (times : List Nat) :
    ∀ s : ChatState,
      (runCreates times s).chats =
        s.chats ++ times.map fun t => { id := toString t, messages := [] } := by
  induction times with
  | nil => intro s; simp [runCreates]
  | cons t rest ih =>
    intro s
    calc (runCreates (t :: rest) s).chats
        = (runCreates rest (createNewChat t s).2).chats := rfl
      _ = _ := by rw [ih]; simp [createNewChat]

/-- Digit characters decode back to their digit. -/
theorem chVal_digitChar : ∀ d : Nat, d < 10 → chVal (Nat.digitChar d) = d := by
  decide

/-- The accumulator of `Nat.toDigitsCore` is a plain suffix. -/
theorem toDigitsCore_append (b : Nat) (f : Nat) : ∀ (n : Nat) (ds : List Char),
    Nat.toDigitsCore b f n ds = Nat.toDigitsCore b f n [] ++ ds := by
  induction f with
  | zero => intro n ds; simp [Nat.toDigitsCore]
  | succ f ih =>
    intro n ds
    simp only [Nat.toDigitsCore]
    by_cases h : n / b = 0
    · simp [h]
    · simp only [h, if_false]
      rw [ih (n / b) (Nat.digitChar (n % b) :: ds),
        ih (n / b) [Nat.digitChar (n % b)]]
      simp

/-- Appending one digit multiplies the decoded value by ten and adds it. -/
theorem parseDec_append (l : List Char) (c : Char) :
    parseDec (l ++ [c]) = 10 * parseDec l + chVal c := by
  simp [parseDec, List.foldl_append, Nat.mul_comm]

/-- `parseDec` is a left inverse of `Nat.toDigitsCore` given enough fuel. -/
theorem parseDec_toDigitsCore (f : Nat) : ∀ n : Nat, n < 10 ^ f →
    parseDec (Nat.toDigitsCore 10 f n []) = n := by
  induction f with
  | zero =>
    intro n h
    simp at h
    subst h
    rfl
  | succ f ih =>
    intro n h
    simp only [Nat.toDigitsCore]
    by_cases h0 : n / 10 = 0
    · have hn : n < 10 := (Nat.div_eq_zero_iff (by norm_num)).mp h0
      rw [if_pos h0, Nat.mod_eq_of_lt hn]
      simp [parseDec, chVal_digitChar n hn]
    · rw [if_neg h0, toDigitsCore_append, parseDec_append,
        ih (n / 10) ((Nat.div_lt_iff_lt_mul (by norm_num)).mpr (by
          rw [← pow_succ]; exact h)),
        chVal_digitChar (n % 10) (Nat.mod_lt n (by norm_num))]
      exact Nat.div_add_mod n 10

/-- Distinct clock readings print to distinct id strings. -/
theorem natToString_injective : Function.Injective (fun n : Nat => toString n) := by
  intro a b hab
  have key : ∀ n : Nat, parseDec (Nat.toDigits 10 n) = n := by
    intro n
    exact parseDec_toDigitsCore (n + 1) n
      (lt_of_lt_of_le (Nat.lt_two_pow n)
        (le_trans (Nat.pow_le_pow_left (by norm_num) n)
          (Nat.pow_le_pow_right (by norm_num) (Nat.le_succ n))))
  have hl : Nat.toDigits 10 a = Nat.toDigits 10 b := by
    have h2 : (Nat.toDigits 10 a).asString = (Nat.toDigits 10 b).asString := hab
    simpa [List.asString] using congrArg String.data h2
  calc a = parseDec (Nat.toDigits 10 a) := (key a).symm
    _ = parseDec (Nat.toDigits 10 b) := by rw [hl]
    _ = b := key b

/-- Reduction of `addUserMessage` when a chat is active. -/
theorem addUserMessage_some (msg : ChatMessage) (st : HookState) (cid : String)
    (hcid : st.chat.currentChatId = some cid) :
    addUserMessage msg st =
      { st with
        chat := addMessageToChat cid msg st.chat,
        localMessages := st.localMessages ++ [msg] } := by
  unfold addUserMessage
  rw [hcid]

/-- Reduction of `fetchChatResponse` on a 2xx response, given a truthy
(non-empty) stored token. -/
theorem fetchChatResponse_ok (tk : String)
    (net : FetchChatResponseInput → NetOutcome) (input : FetchChatResponseInput)
    (status : Nat) (text : String) (res : AIResponse)
    (htk : tk ≠ "")
    (hnet : net input = NetOutcome.response status text res)
    (hok : (200 ≤ status && status < 300) = true) :
    fetchChatResponse (some tk) net input = (Except.ok res, [input]) := by
  unfold fetchChatResponse
  rw [hnet]
  simp [tokenFalsy, htk, hok]

/-- Reduction of `fetchChatResponse` when, given a truthy (non-empty)
stored token, the request draws a non-2xx response or the fetch rejects:
the error thrown is `ChatRequestFailed`. -/
theorem fetchChatResponse_fail (tk : String)
    (net : FetchChatResponseInput → NetOutcome) (input : FetchChatResponseInput)
    (htk : tk ≠ "")
    (hfail : (net input).isOk = false) :
    ∃ m, fetchChatResponse (some tk) net input =
      (Except.error (ChatError.chatRequestFailed m), [input]) := by
  unfold fetchChatResponse
  cases hnet : net input with
  | response status text body =>
    rw [hnet] at hfail
    simp only [NetOutcome.isOk] at hfail
    refine ⟨"AI error: " ++ toString status ++ " " ++ text, ?_⟩
    simp [tokenFalsy, htk, hfail]
  | reject reason =>
    refine ⟨reason, ?_⟩
    simp [tokenFalsy, htk]

/-- Reduction of `addAIMessage` when the fetch succeeds and a chat is
active. -/
theorem addAIMessage_ok (token : Option String)
    (net : FetchChatResponseInput → NetOutcome)
    (aiNow : Nat) (aiTs input : String) (st : HookState)
    (cid : String) (res : AIResponse) (reqs : List FetchChatResponseInput)
    (hcid : st.chat.currentChatId = some cid)
    (hfetch : fetchChatResponse token net { user_input := input } =
      (Except.ok res, reqs)) :
    addAIMessage token net aiNow aiTs input st =
      { state :=
          { chat := addMessageToChat cid (aiMessageOf aiNow aiTs res) st.chat,
            localMessages := st.localMessages ++ [aiMessageOf aiNow aiTs res],
            isLoading := false },
        requests := reqs, caught := none, toasts := [] } := by
  unfold addAIMessage
  rw [hfetch]
  simp only [addMessageToChat]
  rw [show ({ st with isLoading := true } : HookState).chat.currentChatId =
    some cid from hcid]

/-- Reduction of `addAIMessage` when the fetch throws: the error is caught,
a toast is shown, and the chat state is untouched. -/
theorem addAIMessage_err (token : Option String)
    (net : FetchChatResponseInput → NetOutcome)
    (aiNow : Nat) (aiTs input : String) (st : HookState)
    (e : ChatError) (reqs : List FetchChatResponseInput)
    (hfetch : fetchChatResponse token net { user_input := input } =
      (Except.error e, reqs)) :
    addAIMessage token net aiNow aiTs input st =
      { state := { st with isLoading := false }, requests := reqs,
        caught := some e, toasts := ["AI response failed."] } := by
  unfold addAIMessage
  rw [hfetch]

/-- Reduction of `sendMessage` on non-whitespace input. -/
theorem sendMessage_unfold (token : Option String)
    (net : FetchChatResponseInput → NetOutcome)
    (userNow aiNow : Nat) (userTs aiTs input : String) (st : HookState)
    (htrim : jsTrim input ≠ "") :
    sendMessage token net userNow aiNow userTs aiTs input st =
      { state := (addAIMessage token net aiNow aiTs (jsTrim input)
          (addUserMessage (userMessageOf userNow userTs (jsTrim input)) st)).state,
        requests := (addAIMessage token net aiNow aiTs (jsTrim input)
          (addUserMessage (userMessageOf userNow userTs (jsTrim input)) st)).requests,
        toasts := (addAIMessage token net aiNow aiTs (jsTrim input)
          (addUserMessage (userMessageOf userNow userTs (jsTrim input)) st)).toasts } := by
  unfold sendMessage
  rw [if_neg htrim]

/-! ## Claims about the session store -/

/-- C4 (counterexample): two `createNewChat` calls that observe the same
`Date.now()` reading (here 5, i.e. both within the same millisecond) put two
sessions with the same id into the store, refuting "no two sessions in the
store ever share an id". -/
theorem createNewChat_duplicate_id_counterexample :
    (runCreates [5, 5] initialChatState).chats.map Chat.id = ["5", "5"] ∧
    ¬ ((runCreates [5, 5] initialChatState).chats.map Chat.id).Nodup := by
  constructor
  · rfl
  · decide

/-- C4 (amended): every call to `createNewChat` that observes a `Date.now()`
reading distinct from those of all earlier calls in the run yields an id
distinct from all earlier ids — over a run whose clock readings are pairwise
distinct, no two sessions in the store share an id. -/
theorem createNewChat_unique_ids (times : List Nat) (h : times.Nodup) :
    ((runCreates times initialChatState).chats.map Chat.id).Nodup := by
  rw [runCreates_chats times initialChatState]
  simp only [initialChatState, List.nil_append, List.map_map]
  exact h.map fun a b hab => natToString_injective hab

/-- C4 (witness for the amended claim): two creations at distinct clock
readings leave the store with pairwise-distinct session ids. -/
theorem createNewChat_unique_ids_witness :
    ((runCreates [3, 5] initialChatState).chats.map Chat.id).Nodup :=
  createNewChat_unique_ids [3, 5] (by decide)

/-- C5: `addMessageToChat sessionId message` appends the message to the end
of the message list of every session bearing that id when one is present,
and leaves the store entirely unchanged when no session has that id. The
embedding is a total function, so the unknown-id case returns normally —
the original never throws. -/
theorem addMessageToChat_append_or_noop (chatId : String) (msg : ChatMessage)
    (s : ChatState) :
    ((∀ c ∈ s.chats, c.id ≠ chatId) → addMessageToChat chatId msg s = s) ∧
    (∀ (i : Nat) (c : Chat), s.chats[i]? = some c → c.id = chatId →
      (addMessageToChat chatId msg s).chats[i]? =
        some { c with messages := c.messages ++ [msg] }) := by
  constructor
  · intro h
    obtain ⟨chats, cur⟩ := s
    simp only [addMessageToChat, ChatState.mk.injEq, and_true]
    conv_rhs => rw [← List.map_id chats]
    exact List.map_congr_left fun c hc => by simp [h c hc]
  · intro i c hc hid
    rw [addMessageToChat_getElem?, hc]
    simp [hid]

/-- C5 (witness): in a store holding only session "a", adding to unknown id
"b" leaves the store unchanged, and adding to "a" appends at the end. -/
theorem addMessageToChat_append_or_noop_witness :
    addMessageToChat ("b") msg0 state0 = state0 ∧
    (addMessageToChat ("a") msg0 state0).chats[0]? =
      some { id := "a", messages := [msg0] } := by
  constructor
  · exact (addMessageToChat_append_or_noop ("b") msg0 state0).1 (by decide)
  · exact (addMessageToChat_append_or_noop ("a") msg0 state0).2 0
      ({ id := "a", messages := [] }) rfl rfl

/-- C6: `createNewChat` always succeeds, appends a session with an empty
message list to the collection, marks it active, and returns that same
id. -/
theorem createNewChat_postcondition (now : Nat) (s : ChatState) :
    (createNewChat now s).2.chats =
      s.chats ++ [{ id := (createNewChat now s).1, messages := [] }] ∧
    (createNewChat now s).2.currentChatId = some ((createNewChat now s).1) :=
  ⟨rfl, rfl⟩

/-- C9: `addMessageToChat chatId message` leaves every session whose id
differs from `chatId` unchanged, preserves the number and order of sessions
(the collection is mapped in place, index by index), and never moves the
active-session pointer. -/
theorem addMessageToChat_frame (chatId : String) (msg : ChatMessage)
    (s : ChatState) :
    (addMessageToChat chatId msg s).chats.length = s.chats.length ∧
    (∀ (i : Nat) (c : Chat), s.chats[i]? = some c → c.id ≠ chatId →
      (addMessageToChat chatId msg s).chats[i]? = some c) ∧
    (addMessageToChat chatId msg s).currentChatId = s.currentChatId := by
  refine ⟨addMessageToChat_length chatId msg s, ?_, rfl⟩
  intro i c hc hid
  rw [addMessageToChat_getElem?, hc]
  simp [hid]

/-- C9 (witness): adding to session "a" of a two-session store keeps
session "b" (index 1) untouched. -/
theorem addMessageToChat_frame_witness :
    (addMessageToChat ("a") msg0 state1).chats[1]? =
      some { id := "b", messages := [] } :=
  (addMessageToChat_frame ("a") msg0 state1).2.1 1
    ({ id := "b", messages := [] }) rfl (by decide)

/-! ## Claims about the message pipeline -/

/-- C7: with no access token in local storage, `fetchChatResponse` throws
(`No access token found`) before issuing any network request — the request
trace is empty — and the error is caught at the `addAIMessage` call site,
which also issues no request. -/
theorem fetchChatResponse_no_token
    (net : FetchChatResponseInput → NetOutcome)
    (input : FetchChatResponseInput)
    (aiNow : Nat) (aiTs inputText : String) (st : HookState) :
    fetchChatResponse none net input = (Except.error ChatError.noToken, []) ∧
    (addAIMessage none net aiNow aiTs inputText st).requests = [] ∧
    (addAIMessage none net aiNow aiTs inputText st).caught =
      some ChatError.noToken :=
  ⟨rfl, rfl, rfl⟩

/-- C10: when the input trims to the empty string, `sendMessage` returns
immediately: the whole chat state is unchanged, no network request is made,
and no toast is shown. -/
theorem sendMessage_whitespace_noop (token : Option String)
    (net : FetchChatResponseInput → NetOutcome)
    (userNow aiNow : Nat) (userTs aiTs input : String) (st : HookState)
    (h : jsTrim input = "") :
    sendMessage token net userNow aiNow userTs aiTs input st =
      { state := st, requests := [], toasts := [] } := by
  simp [sendMessage, h]

/-- C10 (witness): a whitespace-only input — here an ASCII space, a no-break
space U+00A0 and an em space U+2003, all stripped by `trim()` — leaves a
concrete state untouched. -/
theorem sendMessage_whitespace_noop_witness :
    sendMessage none okNet 0 0 ("t0") ("t1") ("   ") hookState1 =
      { state := hookState1, requests := [], toasts := [] } :=
  sendMessage_whitespace_noop none okNet 0 0 ("t0") ("t1") ("   ")
    hookState1 (by decide)

/-- C2 (counterexample): the appended user message carries the trimmed
text, not the raw input. With input `" hi "` (non-empty after trimming) and
an endpoint answering `"AI echo: hi"`, the active session's messages read
`["hi", "AI echo: hi"]` — not `[" hi ", "AI echo: hi"]` as the claim's
"user's message with text X" would require. -/
theorem sendMessage_untrimmed_input_counterexample :
    ((sendMessage (some ("t")) okNet 10 11 ("ts1") ("ts2") (" hi ")
        hookState1).state.chat.chats.map
      fun c => c.messages.map ChatMessage.text) = [["hi", "AI echo: hi"]] ∧
    ¬ ((sendMessage (some ("t")) okNet 10 11 ("ts1") ("ts2") (" hi ")
        hookState1).state.chat.chats.map
      fun c => c.messages.map ChatMessage.text) = [[" hi ", "AI echo: hi"]] := by
  decide

/-- C2 (amended): for every input that is non-empty after trimming, when the
endpoint answers with a 2xx response, one `sendMessage` call appends exactly
two new messages to the active session: first the user's message with text
equal to the trimmed input and `fromChild = true` (the source's name for the
from-user flag), then the AI's message with `fromChild = false` and text
equal to the response's `response` field. -/
theorem sendMessage_success_appends_two (tk : String)
    (net : FetchChatResponseInput → NetOutcome)
    (userNow aiNow : Nat) (userTs aiTs input : String)
    (st : HookState) (cid : String) (status : Nat) (text : String)
    (res : AIResponse) (i : Nat) (c : Chat)
    (htk : tk ≠ "")
    (htrim : jsTrim input ≠ "")
    (hcid : st.chat.currentChatId = some cid)
    (hnet : net { user_input := jsTrim input } =
      NetOutcome.response status text res)
    (hok : (200 ≤ status && status < 300) = true)
    (hc : st.chat.chats[i]? = some c)
    (hid : c.id = cid) :
    (sendMessage (some tk) net userNow aiNow userTs aiTs input
        st).state.chat.chats[i]? =
      some { c with messages := c.messages ++
        [{ id := toString userNow, text := jsTrim input, fromChild := true,
           timestamp := userTs },
         { id := toString aiNow ++ "_ai", text := res.response,
           fromChild := false, timestamp := aiTs,
           sentiment := some res.sentiment,
           sentiment_score := some res.sentiment_score,
           suggestions := some res.suggested_actions }] } := by
  have hfetch := fetchChatResponse_ok tk net { user_input := jsTrim input }
    status text res htk hnet hok
  have h1 := addUserMessage_some (userMessageOf userNow userTs (jsTrim input))
    st cid hcid
  have hcid1 : ({ st with
      chat := addMessageToChat cid (userMessageOf userNow userTs (jsTrim input))
        st.chat,
      localMessages := st.localMessages ++
        [userMessageOf userNow userTs (jsTrim input)] } :
        HookState).chat.currentChatId = some cid := hcid
  rw [sendMessage_unfold _ _ _ _ _ _ _ _ htrim, h1,
    addAIMessage_ok (some tk) net aiNow aiTs (jsTrim input) _ cid res _
      hcid1 hfetch]
  simp [addMessageToChat_getElem?, hc, hid, userMessageOf, aiMessageOf]

/-- C2 (witness for the amended claim): concrete run with input `" hi "`
against an endpoint answering 200 / `"AI echo: hi"`: the active session
gains exactly the trimmed user message then the AI message. -/
theorem sendMessage_success_appends_two_witness :
    (sendMessage (some ("t")) okNet 10 11 ("ts1") ("ts2") (" hi ")
        hookState1).state.chat.chats[0]? =
      some { id := "1", messages :=
        [{ id := toString 10, text := jsTrim (" hi "), fromChild := true,
           timestamp := "ts1" },
         { id := toString 11 ++ "_ai", text := aiRes0.response,
           fromChild := false, timestamp := "ts2",
           sentiment := some aiRes0.sentiment,
           sentiment_score := some aiRes0.sentiment_score,
           suggestions := some aiRes0.suggested_actions }] } :=
  sendMessage_success_appends_two ("t") okNet 10 11 ("ts1") ("ts2") (" hi ")
    hookState1 ("1") 200 ("") aiRes0 0 ({ id := "1", messages := [] })
    (by decide) (by decide) rfl rfl (by decide) rfl rfl

/-- C3: when the request draws a non-2xx response or the fetch rejects, the
pipeline (`fetchChatResponse`) throws a `ChatRequestFailed` error to its
caller, the caller's catch branch shows the failure toast, and the active
session gains exactly the user's message — no AI message is appended. -/
theorem sendMessage_failure_appends_user_only (tk : String)
    (net : FetchChatResponseInput → NetOutcome)
    (userNow aiNow : Nat) (userTs aiTs input : String)
    (st : HookState) (cid : String) (i : Nat) (c : Chat)
    (htk : tk ≠ "")
    (htrim : jsTrim input ≠ "")
    (hcid : st.chat.currentChatId = some cid)
    (hfail : (net { user_input := jsTrim input }).isOk = false)
    (hc : st.chat.chats[i]? = some c)
    (hid : c.id = cid) :
    (∃ m, (fetchChatResponse (some tk) net { user_input := jsTrim input }).1 =
      Except.error (ChatError.chatRequestFailed m)) ∧
    (sendMessage (some tk) net userNow aiNow userTs aiTs input
        st).state.chat.chats[i]? =
      some { c with messages := c.messages ++
        [{ id := toString userNow, text := jsTrim input, fromChild := true,
           timestamp := userTs }] } ∧
    (sendMessage (some tk) net userNow aiNow userTs aiTs input st).toasts =
      ["AI response failed."] := by
  obtain ⟨m, hm⟩ := fetchChatResponse_fail tk net { user_input := jsTrim input }
    htk hfail
  have h1 := addUserMessage_some (userMessageOf userNow userTs (jsTrim input))
    st cid hcid
  refine ⟨⟨m, by rw [hm]⟩, ?_, ?_⟩
  · rw [sendMessage_unfold _ _ _ _ _ _ _ _ htrim, h1,
      addAIMessage_err (some tk) net aiNow aiTs (jsTrim input) _
        (ChatError.chatRequestFailed m) _ hm]
    simp [addMessageToChat_getElem?, hc, hid, userMessageOf]
  · rw [sendMessage_unfold _ _ _ _ _ _ _ _ htrim, h1,
      addAIMessage_err (some tk) net aiNow aiTs (jsTrim input) _
        (ChatError.chatRequestFailed m) _ hm]

/-- C3 (witness): concrete run with input `"hi"` against an endpoint
answering HTTP 500: a `ChatRequestFailed` error is thrown, the toast is
shown, and the session gains only the user message. -/
theorem sendMessage_failure_appends_user_only_witness :
    (∃ m, (fetchChatResponse (some ("t")) errNet
        { user_input := jsTrim ("hi") }).1 =
      Except.error (ChatError.chatRequestFailed m)) ∧
    (sendMessage (some ("t")) errNet 10 11 ("ts1") ("ts2") ("hi")
        hookState1).state.chat.chats[0]? =
      some { id := "1", messages :=
        [{ id := toString 10, text := jsTrim ("hi"), fromChild := true,
           timestamp := "ts1" }] } ∧
    (sendMessage (some ("t")) errNet 10 11 ("ts1") ("ts2") ("hi")
        hookState1).toasts = ["AI response failed."] :=
  sendMessage_failure_appends_user_only ("t") errNet 10 11 ("ts1") ("ts2")
    ("hi") hookState1 ("1") 0 ({ id := "1", messages := [] })
    (by decide) (by decide) rfl (by decide) rfl rfl

/-! ## Claims about the offline outbox -/

/-- What the handler's statements were written to do (the spec's
read-post-clear flush): every enqueued entry would be posted, in the
ascending order of the store's consecutive auto-increment keys 1, 2, …,
provided each send completes; this branch of the code is unreachable, since
the handler throws before reaching it. -/
theorem intendedFlush_posts_in_insertion_order (msgs : List OutboxMsg)
    (post : OutboxMsg → NetOutcome)
    (h : ∀ m ∈ msgs, ∃ status text body,
      post m = NetOutcome.response status text body) :
    (enqueueAll msgs emptyOutboxDB).entries.map Prod.fst =
      List.range' 1 msgs.length ∧
    (intendedFlush post (enqueueAll msgs emptyOutboxDB)).posted = msgs ∧
    (intendedFlush post (enqueueAll msgs emptyOutboxDB)).db.entries = [] := by
  have hmsgs := getOutboxMessages_enqueueAll msgs
  have hloop : sendLoop post (getOutboxMessages (enqueueAll msgs emptyOutboxDB)) =
      (msgs, false) := by
    rw [hmsgs]; exact sendLoop_responses post msgs h
  refine ⟨?_, ?_, ?_⟩
  · rw [(enqueueAll_entries msgs emptyOutboxDB).1]
    simp [emptyOutboxDB]
    exact List.map_fst_zip _ _ (by simp)
  · simp [intendedFlush, hloop]
  · simp [intendedFlush, hloop, clearOutbox]

/-- C1 (code bug): the claim describes the intended read-post-clear flush,
but the handler as written throws a TypeError at
`db.transaction("outbox", "readonly")` — `db` is the awaited
`IDBOpenDBRequest`, whose `transaction` attribute is null — before reading,
posting, or clearing anything. Concretely: after enqueuing two messages and
firing the handler against an endpoint answering every POST with HTTP 500,
nothing is posted and the outbox still holds both messages — it is not left
empty. -/
theorem onlineHandler_throws_outbox_kept :
    (onlineHandler failPost (enqueueAll twoMsgs emptyOutboxDB)).threw =
      some ("TypeError: db.transaction is not a function") ∧
    (onlineHandler failPost (enqueueAll twoMsgs emptyOutboxDB)).posted = [] ∧
    (onlineHandler failPost (enqueueAll twoMsgs emptyOutboxDB)).db =
      enqueueAll twoMsgs emptyOutboxDB ∧
    getOutboxMessages (onlineHandler failPost (enqueueAll twoMsgs
      emptyOutboxDB)).db = twoMsgs := by
  refine ⟨rfl, rfl, rfl, ?_⟩
  decide

/-- C8 (code bug): for every sequence of enqueued messages and every
endpoint behaviour, the handler as written posts nothing at all — the
TypeError fires before `store.getAll()` — and leaves the outbox unchanged,
so the claimed sequential posting in storage insertion order never happens
in the code (it is the behaviour of the unreachable `intendedFlush`). -/
theorem onlineHandler_never_posts (msgs : List OutboxMsg)
    (post : OutboxMsg → NetOutcome) :
    (onlineHandler post (enqueueAll msgs emptyOutboxDB)).posted = [] ∧
    (onlineHandler post (enqueueAll msgs emptyOutboxDB)).db =
      enqueueAll msgs emptyOutboxDB ∧
    (onlineHandler post (enqueueAll msgs emptyOutboxDB)).threw ≠ none :=
  ⟨rfl, rfl, fun h => Option.noConfusion h⟩

end Awladna
